import Mathlib

/-!
Verification of the risk-management position-sizing engine (src/Live.py).

The engine is a set of pure numeric functions: liquidation price, margin
per unit, margin-based unit cap, per-unit stop risk, risk-based unit cap,
and an orchestrating `recommend_units` that reconciles the caps and applies
a liquidation safety override.  Python floats are modelled as rationals
(ℚ); the single raising path (`ValueError` for non-positive leverage) is
modelled with `Except`.
-/

namespace RiskMgmt

/-- The `Side` literal: "long" or "short". -/
inductive Side where
  | long
  | short
deriving DecidableEq

/-- The single error the engine can raise: `ValueError("leverage must be
positive")`. -/
inductive RiskError where
  | invalidLeverage
deriving DecidableEq

/-- `RiskInput` dataclass from src/Live.py (lines 60-67). -/
structure RiskInput where
  equity_usd : ℚ
  entry : ℚ
  leverage : ℚ
  side : Side
  stop_loss : Option ℚ := none
  risk_percent : ℚ := 2/100

/-- The result dict returned by `recommend_units` (lines 144-159),
as a record. -/
structure RiskAssessment where
  entry : ℚ
  live_price : ℚ
  side : Side
  leverage : ℚ
  equity_usd : ℚ
  stop_loss : Option ℚ
  risk_percent : ℚ
  liquidation_price : ℚ
  margin_per_unit : ℚ
  max_units_by_margin : ℚ
  per_unit_risk : ℚ
  units_by_risk : ℚ
  recommended_units : ℚ
  recommended_margin_capital : ℚ

/-- `liquidation_price` (lines 69-79): raises for `leverage <= 0`;
long: `entry * (1 - 1/leverage)`, short: `entry * (1 + 1/leverage)`. -/
def liquidation_price (entry leverage : ℚ) (side : Side) :
    Except RiskError ℚ :=
  if leverage ≤ 0 then Except.error RiskError.invalidLeverage
  else match side with
    | Side.long => Except.ok (entry * (1 - 1 / leverage))
    | Side.short => Except.ok (entry * (1 + 1 / leverage))

/-- `margin_per_unit` (lines 81-84): raises for `leverage <= 0`;
otherwise `entry / leverage`. -/
def margin_per_unit (entry leverage : ℚ) : Except RiskError ℚ :=
  if leverage ≤ 0 then Except.error RiskError.invalidLeverage
  else Except.ok (entry / leverage)

/-- `max_units_affordable` (lines 86-91): computes `margin_per_unit`
(which may raise), returns 0 if that is `<= 0`, else `equity / mpu`. -/
def max_units_affordable (equity_usd entry leverage : ℚ) :
    Except RiskError ℚ := do
  let mpu ← margin_per_unit entry leverage
  if mpu ≤ 0 then pure 0 else pure (equity_usd / mpu)

/-- `per_unit_risk` (lines 93-99): 0 when no stop; clamped distance from
entry to stop otherwise. -/
def per_unit_risk (entry : ℚ) (stop_loss : Option ℚ) (side : Side) : ℚ :=
  match stop_loss with
  | none => 0
  | some sl =>
    match side with
    | Side.long => max 0 (entry - sl)
    | Side.short => max 0 (sl - entry)

/-- `safe_units_by_risk` (lines 101-110): risk budget
`equity * max(0, risk_percent)`; 0 when `pu_risk <= 0`, else
`budget / pu_risk`. -/
def safe_units_by_risk (equity_usd risk_percent pu_risk : ℚ) : ℚ :=
  let risk_dollar := equity_usd * max 0 risk_percent
  if pu_risk ≤ 0 then 0 else risk_dollar / pu_risk

/-- The liquidation safety override condition of line 138:
`(side == "long" and live_price <= liq) or
 (side == "short" and live_price >= liq)`. -/
def beyond_liquidation (side : Side) (live_price liq : ℚ) : Prop :=
  (side = Side.long ∧ live_price ≤ liq) ∨
    (side = Side.short ∧ live_price ≥ liq)

instance (side : Side) (live_price liq : ℚ) :
    Decidable (beyond_liquidation side live_price liq) := by
  unfold beyond_liquidation; infer_instance

/-- `recommend_units` (lines 112-159): the orchestrating decision rule. -/
def recommend_units (inp : RiskInput) (live_price : ℚ) :
    Except RiskError RiskAssessment := do
  let liq ← liquidation_price inp.entry inp.leverage inp.side
  let mpu ← margin_per_unit inp.entry inp.leverage
  let max_by_margin ← max_units_affordable inp.equity_usd inp.entry
    inp.leverage
  let pu_risk := per_unit_risk inp.entry inp.stop_loss inp.side
  let units_by_risk := safe_units_by_risk inp.equity_usd inp.risk_percent
    pu_risk
  let candidates : List ℚ :=
    [max_by_margin] ++ (if units_by_risk > 0 then [units_by_risk] else [])
  let rec_units0 : ℚ :=
    match candidates with
    | [] => 0
    | c :: cs => cs.foldl min c
  let rec_units : ℚ :=
    if beyond_liquidation inp.side live_price liq then 0 else rec_units0
  let capital_margin := rec_units * mpu
  pure {
    entry := inp.entry
    live_price := live_price
    side := inp.side
    leverage := inp.leverage
    equity_usd := inp.equity_usd
    stop_loss := inp.stop_loss
    risk_percent := inp.risk_percent
    liquidation_price := liq
    margin_per_unit := mpu
    max_units_by_margin := max_by_margin
    per_unit_risk := pu_risk
    units_by_risk := units_by_risk
    recommended_units := rec_units
    recommended_margin_capital := capital_margin }

/-- Value of `liquidation_price` on the non-raising path (`leverage > 0`). -/
def liq_value (entry leverage : ℚ) : Side → ℚ
  | Side.long => entry * (1 - 1 / leverage)
  | Side.short => entry * (1 + 1 / leverage)

/-- Value of `max_units_affordable` on the non-raising path. -/
def max_units_value (equity_usd entry leverage : ℚ) : ℚ :=
  if entry / leverage ≤ 0 then 0 else equity_usd / (entry / leverage)

/-- The straight-line computation of `recommend_units` on the non-raising
path (`leverage > 0`), proved equal to it in `recommend_units_eq`. -/
def recommend_units_total (inp : RiskInput) (live_price : ℚ) :
    RiskAssessment :=
  let liq := liq_value inp.entry inp.leverage inp.side
  let mpu := inp.entry / inp.leverage
  let max_by_margin := max_units_value inp.equity_usd inp.entry inp.leverage
  let pu_risk := per_unit_risk inp.entry inp.stop_loss inp.side
  let units_by_risk := safe_units_by_risk inp.equity_usd inp.risk_percent
    pu_risk
  let candidates : List ℚ :=
    [max_by_margin] ++ (if units_by_risk > 0 then [units_by_risk] else [])
  let rec_units0 : ℚ :=
    match candidates with
    | [] => 0
    | c :: cs => cs.foldl min c
  let rec_units : ℚ :=
    if beyond_liquidation inp.side live_price liq then 0 else rec_units0
  let capital_margin := rec_units * mpu
  { entry := inp.entry
    live_price := live_price
    side := inp.side
    leverage := inp.leverage
    equity_usd := inp.equity_usd
    stop_loss := inp.stop_loss
    risk_percent := inp.risk_percent
    liquidation_price := liq
    margin_per_unit := mpu
    max_units_by_margin := max_by_margin
    per_unit_risk := pu_risk
    units_by_risk := units_by_risk
    recommended_units := rec_units
    recommended_margin_capital := capital_margin }

/-- Scenario B input: equity 10000, entry 50000, leverage 10, long,
stop 49000, risk fraction 2%. -/
def inpB : RiskInput := ⟨10000, 50000, 10, Side.long, some 49000, 2/100⟩

/-- Scenario D input: as B but with no stop supplied. -/
def inpD : RiskInput := ⟨10000, 50000, 10, Side.long, none, 2/100⟩

/-- A long request whose stop (51000) sits on the wrong side of the
entry (50000), so the clamped per-unit risk is 0. -/
def inpWrongStop : RiskInput :=
  ⟨10000, 50000, 10, Side.long, some 51000, 2/100⟩

/-- A degenerate request: zero equity and negative entry. -/
def inpZeroEq : RiskInput := ⟨0, -5, 10, Side.long, none, 2/100⟩

theorem ok_bind {ε α β : Type} (v : α) (f : α → Except ε β) :
    (Except.ok v : Except ε α) >>= f = f v := rfl

@[simp] theorem long_eq_short_false : (Side.long = Side.short) = False :=
  eq_false (fun h => nomatch h)

@[simp] theorem short_eq_long_false : (Side.short = Side.long) = False :=
  eq_false (fun h => nomatch h)

theorem liquidation_price_pos (entry leverage : ℚ) (side : Side)
    (h : ¬ leverage ≤ 0) :
    liquidation_price entry leverage side =
      Except.ok (liq_value entry leverage side) := by
  cases side <;> simp [liquidation_price, liq_value, if_neg h]

theorem margin_per_unit_pos (entry leverage : ℚ) (h : ¬ leverage ≤ 0) :
    margin_per_unit entry leverage = Except.ok (entry / leverage) := by
  simp [margin_per_unit, if_neg h]

theorem max_units_affordable_pos (equity_usd entry leverage : ℚ)
    (h : ¬ leverage ≤ 0) :
    max_units_affordable equity_usd entry leverage =
      Except.ok (max_units_value equity_usd entry leverage) := by
  simp only [max_units_affordable, margin_per_unit_pos entry leverage h,
    ok_bind, max_units_value]
  split <;> rfl

/-- On the non-raising path (`leverage > 0`), `recommend_units` succeeds
with the straight-line computation. -/
theorem recommend_units_eq (inp : RiskInput) (live_price : ℚ)
    (h : 0 < inp.leverage) :
    recommend_units inp live_price =
      Except.ok (recommend_units_total inp live_price) := by
  have h' : ¬ inp.leverage ≤ 0 := not_le.mpr h
  simp only [recommend_units,
    liquidation_price_pos inp.entry inp.leverage inp.side h',
    margin_per_unit_pos inp.entry inp.leverage h',
    max_units_affordable_pos inp.equity_usd inp.entry inp.leverage h',
    ok_bind]
  rfl

theorem error_bind {ε α β : Type} (e : ε) (f : α → Except ε β) :
    (Except.error e : Except ε α) >>= f = Except.error e := rfl

/-- The recommended-units field of the straight-line computation: the
liquidation override applied to the min over the candidate caps. -/
theorem total_recommended_units (inp : RiskInput) (live_price : ℚ) :
    (recommend_units_total inp live_price).recommended_units =
      if beyond_liquidation inp.side live_price
          (liq_value inp.entry inp.leverage inp.side) then 0
      else
        (if safe_units_by_risk inp.equity_usd inp.risk_percent
              (per_unit_risk inp.entry inp.stop_loss inp.side) > 0
          then [safe_units_by_risk inp.equity_usd inp.risk_percent
              (per_unit_risk inp.entry inp.stop_loss inp.side)]
          else []).foldl min
            (max_units_value inp.equity_usd inp.entry inp.leverage) := rfl

theorem total_units_by_risk (inp : RiskInput) (live_price : ℚ) :
    (recommend_units_total inp live_price).units_by_risk =
      safe_units_by_risk inp.equity_usd inp.risk_percent
        (per_unit_risk inp.entry inp.stop_loss inp.side) := rfl

theorem total_max_units_by_margin (inp : RiskInput) (live_price : ℚ) :
    (recommend_units_total inp live_price).max_units_by_margin =
      max_units_value inp.equity_usd inp.entry inp.leverage := rfl

theorem ok_ne_error {ε α : Type} (v : α) (e : ε) :
    (Except.ok v : Except ε α) ≠ Except.error e := fun h => nomatch h

/-- C1: Liquidation safety override: for every request with leverage > 0
and every live price, if the side is LONG and the live price is at or
below the liquidation price, or the side is SHORT and the live price is
at or above it, then `recommend_units` recommends zero units, regardless
of the margin-based and risk-based caps. -/
theorem claim_C1 (inp : RiskInput) (live_price liq : ℚ)
    (hlev : 0 < inp.leverage)
    (hliq : liquidation_price inp.entry inp.leverage inp.side =
      Except.ok liq)
    (hover : (inp.side = Side.long ∧ live_price ≤ liq) ∨
      (inp.side = Side.short ∧ live_price ≥ liq)) :
    (recommend_units inp live_price).map RiskAssessment.recommended_units =
      Except.ok 0 := by
  rw [liquidation_price_pos inp.entry inp.leverage inp.side
    (not_le.mpr hlev), Except.ok.injEq] at hliq
  subst hliq
  rw [recommend_units_eq inp live_price hlev]
  simp only [Except.map, total_recommended_units]
  have hb : beyond_liquidation inp.side live_price
      (liq_value inp.entry inp.leverage inp.side) := hover
  rw [if_pos hb]

/-- Witness for C1: Scenario C — Scenario B's request at live price 44000,
below the liquidation price 45000, yields zero recommended units. -/
theorem claim_C1_witness :
    (recommend_units inpB 44000).map RiskAssessment.recommended_units =
      Except.ok 0 :=
  claim_C1 inpB 44000 45000 (by norm_num [inpB])
    (by norm_num [inpB, liquidation_price, liq_value])
    (Or.inl ⟨rfl, by norm_num⟩)

/-- C2: Scenario B: equity 10000, entry 50000, leverage 10, LONG,
stop 49000, risk fraction 0.02, at any live price strictly above the
liquidation price 45000: per-unit risk 1000, units by risk 0.2, max
units by margin 2, recommended units 0.2, recommended margin capital
1000. -/
theorem claim_C2 (live_price : ℚ) (h : 45000 < live_price) :
    (recommend_units inpB live_price).map (fun r =>
      (r.per_unit_risk, r.units_by_risk, r.max_units_by_margin,
        r.recommended_units, r.recommended_margin_capital)) =
      Except.ok (1000, 1/5, 2, 1/5, 1000) := by
  rw [recommend_units_eq inpB live_price (by norm_num [inpB])]
  simp only [Except.map]
  norm_num [recommend_units_total, inpB, liq_value, max_units_value,
    per_unit_risk, safe_units_by_risk, beyond_liquidation, not_le.mpr h]

/-- Witness for C2: Scenario B evaluated at live price 50000. -/
theorem claim_C2_witness : 45000 < (50000:ℚ) ∧
    (recommend_units inpB 50000).map (fun r =>
      (r.per_unit_risk, r.units_by_risk, r.max_units_by_margin,
        r.recommended_units, r.recommended_margin_capital)) =
      Except.ok (1000, 1/5, 2, 1/5, 1000) :=
  ⟨by norm_num, claim_C2 50000 (by norm_num)⟩

/-- C3: Raises-iff for InvalidLeverage: `liquidation_price` and
`margin_per_unit` raise exactly when leverage ≤ 0, return normally for
every leverage > 0, and `recommend_units` propagates the error: it raises
exactly when the request's leverage is ≤ 0, for every request and live
price. -/
theorem claim_C3 (entry leverage : ℚ) (side : Side) (inp : RiskInput)
    (live_price : ℚ) :
    (liquidation_price entry leverage side =
        Except.error RiskError.invalidLeverage ↔ leverage ≤ 0) ∧
    ((∃ v, liquidation_price entry leverage side = Except.ok v) ↔
        0 < leverage) ∧
    (margin_per_unit entry leverage =
        Except.error RiskError.invalidLeverage ↔ leverage ≤ 0) ∧
    ((∃ v, margin_per_unit entry leverage = Except.ok v) ↔
        0 < leverage) ∧
    (recommend_units inp live_price =
        Except.error RiskError.invalidLeverage ↔ inp.leverage ≤ 0) ∧
    ((∃ r, recommend_units inp live_price = Except.ok r) ↔
        0 < inp.leverage) := by
  have herr : ∀ h : inp.leverage ≤ 0, recommend_units inp live_price =
      Except.error RiskError.invalidLeverage := by
    intro h
    simp only [recommend_units, liquidation_price.eq_def, if_pos h, error_bind]
  refine ⟨⟨fun heq => ?_, fun h => by simp [liquidation_price.eq_def, if_pos h]⟩,
    ⟨fun ⟨v, hv⟩ => ?_,
      fun h => ⟨_, liquidation_price_pos entry leverage side
        (not_le.mpr h)⟩⟩,
    ⟨fun heq => ?_, fun h => by simp [margin_per_unit, if_pos h]⟩,
    ⟨fun ⟨v, hv⟩ => ?_,
      fun h => ⟨_, margin_per_unit_pos entry leverage (not_le.mpr h)⟩⟩,
    ⟨fun heq => ?_, herr⟩,
    ⟨fun ⟨r, hr⟩ => ?_, fun h => ⟨_, recommend_units_eq inp live_price h⟩⟩⟩
  · by_contra hc
    rw [liquidation_price_pos entry leverage side hc] at heq
    exact ok_ne_error _ _ heq
  · by_contra hc
    rw [not_lt] at hc
    rw [liquidation_price.eq_def, if_pos hc] at hv
    exact ok_ne_error _ _ hv.symm
  · by_contra hc
    rw [margin_per_unit_pos entry leverage hc] at heq
    exact ok_ne_error _ _ heq
  · by_contra hc
    rw [not_lt] at hc
    rw [margin_per_unit, if_pos hc] at hv
    exact ok_ne_error _ _ hv.symm
  · by_contra hc
    rw [recommend_units_eq inp live_price (not_le.mp hc)] at heq
    exact ok_ne_error _ _ heq
  · by_contra hc
    rw [not_lt] at hc
    rw [herr hc] at hr
    exact ok_ne_error _ _ hr.symm

/-- Witness for C3: leverage 0 makes all three functions raise
InvalidLeverage. -/
theorem claim_C3_witness :
    liquidation_price 50000 0 Side.long =
      Except.error RiskError.invalidLeverage ∧
    margin_per_unit 50000 0 = Except.error RiskError.invalidLeverage ∧
    recommend_units ⟨10000, 50000, 0, Side.long, none, 2/100⟩ 1 =
      Except.error RiskError.invalidLeverage :=
  ⟨(claim_C3 50000 0 Side.long inpB 1).1.mpr le_rfl,
    (claim_C3 50000 0 Side.long inpB 1).2.2.1.mpr le_rfl,
    (claim_C3 50000 0 Side.long
      ⟨10000, 50000, 0, Side.long, none, 2/100⟩ 1).2.2.2.2.1.mpr le_rfl⟩

theorem max_units_value_nonpos_entry {entry leverage : ℚ} (he : entry ≤ 0)
    (hl : 0 < leverage) (equity_usd : ℚ) :
    max_units_value equity_usd entry leverage = 0 := by
  rw [max_units_value, if_pos (div_nonpos_iff.mpr (Or.inr ⟨he, hl.le⟩))]

theorem max_units_value_zero_eq (entry leverage : ℚ) :
    max_units_value 0 entry leverage = 0 := by
  rw [max_units_value]
  split <;> simp

theorem max_units_value_nonpos_eq {equity_usd : ℚ} (h : equity_usd ≤ 0)
    (entry leverage : ℚ) : max_units_value equity_usd entry leverage ≤ 0 := by
  rw [max_units_value]
  split
  · exact le_refl 0
  · rename_i hc
    exact div_nonpos_iff.mpr (Or.inr ⟨h, (not_le.mp hc).le⟩)

theorem safe_units_nonpos {equity_usd : ℚ} (h : equity_usd ≤ 0)
    (risk_percent pu_risk : ℚ) :
    safe_units_by_risk equity_usd risk_percent pu_risk ≤ 0 := by
  rw [safe_units_by_risk]
  split
  · exact le_refl 0
  · rename_i hc
    exact div_nonpos_iff.mpr
      (Or.inr ⟨mul_nonpos_iff.mpr (Or.inr ⟨h, le_max_left 0 risk_percent⟩),
        (not_le.mp hc).le⟩)

theorem safe_units_zero_eq (risk_percent pu_risk : ℚ) :
    safe_units_by_risk 0 risk_percent pu_risk = 0 := by
  rw [safe_units_by_risk]
  split <;> simp

/-- C4 counterexample: the claim fails as stated.  A long request with
leverage 10 and a stop at 51000 above the entry 50000 (so the clamped
per-unit risk is 0 with a stop present) gets a recommendation of 2 units,
not 0: the zero risk cap is simply dropped and sizing falls back to the
margin cap. -/
theorem claim_C4_counterexample :
    (recommend_units inpWrongStop 50000).map
      RiskAssessment.recommended_units = Except.ok 2 ∧ (2:ℚ) ≠ 0 := by
  constructor
  · rw [recommend_units_eq inpWrongStop 50000 (by norm_num [inpWrongStop])]
    simp only [Except.map]
    norm_num [recommend_units_total, inpWrongStop, liq_value,
      max_units_value, per_unit_risk, safe_units_by_risk,
      beyond_liquidation]
  · norm_num

/-- C4 (amended): for every request with leverage > 0 and every live
price, `recommend_units` does not raise; if entry ≤ 0 or equity == 0 the
recommended units are 0; if equity ≤ 0 the recommended units are ≤ 0.  (A
stop on the wrong side of entry does not zero the recommendation: it
falls back to the margin cap, see the counterexample.) -/
theorem claim_C4 (inp : RiskInput) (live_price : ℚ)
    (hlev : 0 < inp.leverage) :
    recommend_units inp live_price =
      Except.ok (recommend_units_total inp live_price) ∧
    ((inp.entry ≤ 0 ∨ inp.equity_usd = 0) →
      (recommend_units_total inp live_price).recommended_units = 0) ∧
    (inp.equity_usd ≤ 0 →
      (recommend_units_total inp live_price).recommended_units ≤ 0) := by
  refine ⟨recommend_units_eq inp live_price hlev, fun hd => ?_,
    fun hq => ?_⟩
  · rw [total_recommended_units]
    have hm0 : max_units_value inp.equity_usd inp.entry inp.leverage = 0 := by
      rcases hd with he | hq0
      · exact max_units_value_nonpos_entry he hlev _
      · rw [hq0]; exact max_units_value_zero_eq _ _
    rw [hm0]
    have hfold : List.foldl min 0
        (if safe_units_by_risk inp.equity_usd inp.risk_percent
            (per_unit_risk inp.entry inp.stop_loss inp.side) > 0
          then [safe_units_by_risk inp.equity_usd inp.risk_percent
            (per_unit_risk inp.entry inp.stop_loss inp.side)]
          else []) = 0 := by
      split
      · rename_i hubr
        simp only [List.foldl_cons, List.foldl_nil]
        exact min_eq_left hubr.le
      · rfl
    rw [hfold, ite_self]
  · rw [total_recommended_units]
    split
    · exact le_refl 0
    · have hm := max_units_value_nonpos_eq hq inp.entry inp.leverage
      split
      · simp only [List.foldl_cons, List.foldl_nil]
        exact le_trans (min_le_left _ _) hm
      · simpa using hm

/-- Witness for C4: zero equity and negative entry yield a successful
evaluation recommending zero units. -/
theorem claim_C4_witness :
    recommend_units inpZeroEq 1 =
      Except.ok (recommend_units_total inpZeroEq 1) ∧
    (recommend_units_total inpZeroEq 1).recommended_units = 0 ∧
    (recommend_units_total inpZeroEq 1).recommended_units ≤ 0 := by
  have h := claim_C4 inpZeroEq 1 (by norm_num [inpZeroEq])
  exact ⟨h.1, h.2.1 (Or.inr (by norm_num [inpZeroEq])),
    h.2.2 (by norm_num [inpZeroEq])⟩

/-- C5 counterexample: the claim fails as stated.  With no stop supplied
(Scenario D input) but a live price 44000 below the liquidation price
45000, the liquidation override forces recommended units 0 while the
margin cap is 2, so recommended units do not equal the margin cap. -/
theorem claim_C5_counterexample :
    (recommend_units inpD 44000).map (fun r =>
      (r.units_by_risk, r.max_units_by_margin, r.recommended_units)) =
      Except.ok (0, 2, 0) ∧ (0:ℚ) ≠ 2 := by
  constructor
  · rw [recommend_units_eq inpD 44000 (by norm_num [inpD])]
    simp only [Except.map]
    norm_num [recommend_units_total, inpD, liq_value, max_units_value,
      per_unit_risk, safe_units_by_risk, beyond_liquidation]
  · norm_num

/-- C5 (amended): for every request with leverage > 0 and no stop, and
every live price NOT beyond the liquidation boundary, the risk-based cap
is 0 and the recommended units equal the margin cap: the zero risk cap is
never selected as the minimum. -/
theorem claim_C5 (inp : RiskInput) (live_price liq : ℚ)
    (hlev : 0 < inp.leverage) (hstop : inp.stop_loss = none)
    (hliq : liquidation_price inp.entry inp.leverage inp.side =
      Except.ok liq)
    (hin : ¬ ((inp.side = Side.long ∧ live_price ≤ liq) ∨
      (inp.side = Side.short ∧ live_price ≥ liq))) :
    (recommend_units inp live_price).map (fun r =>
      (r.units_by_risk, r.recommended_units, r.max_units_by_margin)) =
      Except.ok (0, max_units_value inp.equity_usd inp.entry inp.leverage,
        max_units_value inp.equity_usd inp.entry inp.leverage) := by
  rw [liquidation_price_pos inp.entry inp.leverage inp.side
    (not_le.mpr hlev), Except.ok.injEq] at hliq
  subst hliq
  rw [recommend_units_eq inp live_price hlev]
  simp only [Except.map, Except.ok.injEq, Prod.mk.injEq]
  have hpu : per_unit_risk inp.entry inp.stop_loss inp.side = 0 := by
    rw [hstop]; rfl
  have hb : ¬ beyond_liquidation inp.side live_price
      (liq_value inp.entry inp.leverage inp.side) := hin
  refine ⟨?_, ?_, total_max_units_by_margin inp live_price⟩
  · rw [total_units_by_risk, hpu, safe_units_by_risk]
    simp
  · rw [total_recommended_units, hpu, if_neg hb]
    have hubr : ¬ safe_units_by_risk inp.equity_usd inp.risk_percent 0 > 0 := by
      rw [safe_units_by_risk]; simp
    rw [if_neg hubr]
    rfl

/-- Witness for C5: Scenario D input at live price 50000 (inside the
liquidation boundary 45000). -/
theorem claim_C5_witness :
    (recommend_units inpD 50000).map (fun r =>
      (r.units_by_risk, r.recommended_units, r.max_units_by_margin)) =
      Except.ok (0, max_units_value 10000 50000 10,
        max_units_value 10000 50000 10) := by
  have h := claim_C5 inpD 50000 45000 (by norm_num [inpD]) rfl
    (by norm_num [inpD, liquidation_price, liq_value])
    (by norm_num [inpD])
  exact h

/-- C6 counterexample: the claim fails as stated.  For leverage ≤ 0,
`max_units_affordable` does not return 0: it raises InvalidLeverage
(propagated from `margin_per_unit`). -/
theorem claim_C6_counterexample :
    max_units_affordable 10000 50000 (-1) =
      Except.error RiskError.invalidLeverage ∧
    max_units_affordable 10000 50000 (-1) ≠ Except.ok 0 := by
  have h : max_units_affordable 10000 50000 (-1) =
      Except.error RiskError.invalidLeverage := by
    norm_num [max_units_affordable, margin_per_unit, error_bind]
  exact ⟨h, by rw [h]; exact fun hc => ok_ne_error 0 _ hc.symm⟩

/-- C6 (amended): `max_units_affordable` raises InvalidLeverage whenever
leverage ≤ 0; for leverage > 0 it returns 0 when entry ≤ 0 and
equity / (entry / leverage) when entry > 0. -/
theorem claim_C6 (equity_usd entry leverage : ℚ) :
    (leverage ≤ 0 → max_units_affordable equity_usd entry leverage =
      Except.error RiskError.invalidLeverage) ∧
    (0 < leverage → entry ≤ 0 →
      max_units_affordable equity_usd entry leverage = Except.ok 0) ∧
    (0 < leverage → 0 < entry →
      max_units_affordable equity_usd entry leverage =
        Except.ok (equity_usd / (entry / leverage))) := by
  refine ⟨fun h => ?_, fun hl he => ?_, fun hl he => ?_⟩
  · simp only [max_units_affordable, margin_per_unit, if_pos h, error_bind]
  · rw [max_units_affordable_pos equity_usd entry leverage (not_le.mpr hl)]
    rw [max_units_value_nonpos_entry he hl equity_usd]
  · rw [max_units_affordable_pos equity_usd entry leverage (not_le.mpr hl),
      max_units_value, if_neg (not_le.mpr (div_pos he hl))]

/-- Witness for C6: entry -5 yields a zero cap; Scenario B numbers yield
a cap of 2 units. -/
theorem claim_C6_witness :
    max_units_affordable 10000 (-5) 10 = Except.ok 0 ∧
    max_units_affordable 10000 50000 10 = Except.ok 2 := by
  refine ⟨(claim_C6 10000 (-5) 10).2.1 (by norm_num) (by norm_num), ?_⟩
  have h := (claim_C6 10000 50000 10).2.2 (by norm_num) (by norm_num)
  rw [h]
  norm_num

/-- C7: Liquidation-price ordering: for leverage > 0 and entry > 0, the
long liquidation price is strictly below the entry and the short
liquidation price strictly above it. -/
theorem claim_C7 (entry leverage : ℚ) (he : 0 < entry)
    (hl : 0 < leverage) :
    liquidation_price entry leverage Side.long =
      Except.ok (liq_value entry leverage Side.long) ∧
    liquidation_price entry leverage Side.short =
      Except.ok (liq_value entry leverage Side.short) ∧
    liq_value entry leverage Side.long < entry ∧
    entry < liq_value entry leverage Side.short := by
  have h' : ¬ leverage ≤ 0 := not_le.mpr hl
  have hinv : 0 < 1 / leverage := by positivity
  refine ⟨liquidation_price_pos entry leverage Side.long h',
    liquidation_price_pos entry leverage Side.short h', ?_, ?_⟩
  · show entry * (1 - 1 / leverage) < entry
    nlinarith [mul_pos he hinv]
  · show entry < entry * (1 + 1 / leverage)
    nlinarith [mul_pos he hinv]

/-- Witness for C7: entry 50000, leverage 10: liquidation prices 45000
and 55000 bracket the entry. -/
theorem claim_C7_witness :
    liquidation_price 50000 10 Side.long =
      Except.ok (liq_value 50000 10 Side.long) ∧
    liquidation_price 50000 10 Side.short =
      Except.ok (liq_value 50000 10 Side.short) ∧
    liq_value 50000 10 Side.long < 50000 ∧
    (50000:ℚ) < liq_value 50000 10 Side.short :=
  claim_C7 50000 10 (by norm_num) (by norm_num)

/-- C8: per-unit-risk clamp: the per-unit risk is never negative, and it
is exactly 0 when no stop is supplied. -/
theorem claim_C8 (entry : ℚ) (stop_loss : Option ℚ) (side : Side) :
    0 ≤ per_unit_risk entry stop_loss side ∧
    per_unit_risk entry none side = 0 := by
  constructor
  · cases stop_loss with
    | none => exact le_refl 0
    | some sl => cases side <;> exact le_max_left 0 _
  · rfl

/-- C9: determinism: `recommend_units` is a pure function of the request
fields and the live price — two calls whose request fields and live
prices are pairwise equal return identical results. -/
theorem claim_C9 (a b : RiskInput) (p q : ℚ)
    (h1 : a.equity_usd = b.equity_usd) (h2 : a.entry = b.entry)
    (h3 : a.leverage = b.leverage) (h4 : a.side = b.side)
    (h5 : a.stop_loss = b.stop_loss) (h6 : a.risk_percent = b.risk_percent)
    (hp : p = q) :
    recommend_units a p = recommend_units b q := by
  have hab : a = b := by
    cases a; cases b
    congr 1
  rw [hab, hp]

/-- Witness for C9: two identical Scenario B calls agree. -/
theorem claim_C9_witness :
    recommend_units inpB 50000 = recommend_units inpB 50000 :=
  claim_C9 inpB inpB 50000 50000 rfl rfl rfl rfl rfl rfl rfl

/-- C10: live-price frame property: for a fixed request with
leverage > 0, evaluations at two live prices agree on every field other
than the live-price echo, the recommended units and the recommended
margin capital: all input echoes, the liquidation price, the margin per
unit, the margin cap, the per-unit risk and the risk cap are independent
of the live price. -/
theorem claim_C10 (inp : RiskInput) (p1 p2 : ℚ)
    (hlev : 0 < inp.leverage) :
    (recommend_units inp p1).map (fun r =>
      (r.entry, r.side, r.leverage, r.equity_usd, r.stop_loss,
        r.risk_percent, r.liquidation_price, r.margin_per_unit,
        r.max_units_by_margin, r.per_unit_risk, r.units_by_risk)) =
    (recommend_units inp p2).map (fun r =>
      (r.entry, r.side, r.leverage, r.equity_usd, r.stop_loss,
        r.risk_percent, r.liquidation_price, r.margin_per_unit,
        r.max_units_by_margin, r.per_unit_risk, r.units_by_risk)) := by
  rw [recommend_units_eq inp p1 hlev, recommend_units_eq inp p2 hlev]
  rfl

/-- Witness for C10: Scenario B at live prices 50000 and 44000 (one of
them beyond the liquidation boundary) still agree on all
price-independent fields. -/
theorem claim_C10_witness :
    (recommend_units inpB 50000).map (fun r =>
      (r.entry, r.side, r.leverage, r.equity_usd, r.stop_loss,
        r.risk_percent, r.liquidation_price, r.margin_per_unit,
        r.max_units_by_margin, r.per_unit_risk, r.units_by_risk)) =
    (recommend_units inpB 44000).map (fun r =>
      (r.entry, r.side, r.leverage, r.equity_usd, r.stop_loss,
        r.risk_percent, r.liquidation_price, r.margin_per_unit,
        r.max_units_by_margin, r.per_unit_risk, r.units_by_risk)) :=
  claim_C10 inpB 50000 44000 (by norm_num [inpB])

end RiskMgmt
